import Mathlib

/-!
Verification of the cuckoo3 CLI front end (`core/cuckoo/main.py`): the
submission settings/dispatch pipeline, the working-directory create command,
the machine-add tag parsing and the startup/shutdown orchestration.

Functions present in `core/cuckoo/main.py` are embedded directly from the
source.  Collaborators living in other modules of the repository
(`cuckoo.common.storage`, `cuckoo.common.submit`, `cuckoo.common.shutdown`)
are modelled from the specification, each marked `Modelled from the spec:`
in its doc comment.
-/

/-- A platform entry accumulated by the settings builder:
`(platform, optional os_version)`. -/
structure PlatformEntry where
  platform : String
  os_version : Option String
deriving DecidableEq, Repr

/-- The immutable settings value produced by `make_settings`. -/
structure Settings where
  timeout : Int
  priority : Int
  manual : Bool
  platforms : List PlatformEntry
deriving DecidableEq, Repr

/-- Modelled from the spec: the mutable builder state of
`submit.settings_maker` (`SettingsBuilder`), accumulating timeout, priority,
manual flag and an ordered platform list. Fields start absent. -/
structure SettingsBuilderState where
  timeout : Option Int
  priority : Option Int
  manual : Option Bool
  platforms : List PlatformEntry
deriving DecidableEq, Repr

/-- Modelled from the spec: `settings_maker.new_settings()` returns a fresh
builder with no fields set. -/
def new_settings : SettingsBuilderState := ⟨none, none, none, []⟩

/-- Modelled from the spec: `SetTimeout(seconds)`. -/
def set_timeout (b : SettingsBuilderState) (v : Int) : SettingsBuilderState :=
  { b with timeout := some v }

/-- Modelled from the spec: `SetPriority(value)`. -/
def set_priority (b : SettingsBuilderState) (v : Int) : SettingsBuilderState :=
  { b with priority := some v }

/-- Modelled from the spec: `SetManual(bool)`. -/
def set_manual (b : SettingsBuilderState) (v : Bool) : SettingsBuilderState :=
  { b with manual := some v }

/-- Modelled from the spec: `AddPlatform(platform, os_version?)` appends one
platform entry; callable multiple times, no deduplication. -/
def add_platform (b : SettingsBuilderState) (p : String) (v : Option String) :
    SettingsBuilderState :=
  { b with platforms := b.platforms ++ [⟨p, v⟩] }

/-- Modelled from the spec: `Build() -> Settings` validates field
presence/ranges (`timeout: integer > 0`) and fails with a `SettingsError`
naming the first invalid field; on success returns the immutable value. -/
def make_settings (b : SettingsBuilderState) : Except String Settings :=
  match b.timeout with
  | none => Except.error "timeout"
  | some t =>
    if t ≤ 0 then Except.error "timeout"
    else
      match b.priority with
      | none => Except.error "priority"
      | some pr =>
        match b.manual with
        | none => Except.error "manual"
        | some m => Except.ok ⟨t, pr, m, b.platforms⟩

/-- Python `s.split(",", 1)` on a character list: the characters before the
first comma, and — when a comma occurs — everything after it, unsplit. -/
def splitFirstComma : List Char → List Char × Option (List Char)
  | [] => ([], none)
  | c :: cs =>
    if c = ',' then ([], some cs)
    else
      let r := splitFirstComma cs
      (c :: r.1, r.2)

/-- Python `s.split(",", 1)`: a list of one or two strings. -/
def pySplitCommaOnce (s : String) : List String :=
  match splitFirstComma s.data with
  | (a, none) => [String.mk a]
  | (a, some b) => [String.mk a, String.mk b]

/-- One iteration of the platform loop of the `submit` command
(`main.py` lines 221-231): split the token on the first comma and add one
platform entry, with the os version when the split produced two pieces. -/
def addPlatformToken (b : SettingsBuilderState) (p_v : String) :
    SettingsBuilderState :=
  let platform_version := pySplitCommaOnce p_v
  if platform_version.length = 2 then
    add_platform b (platform_version.getD 0 "") (some (platform_version.getD 1 ""))
  else
    add_platform b (platform_version.getD 0 "") none

/-- The settings-building prefix of the `submit` command
(`main.py` lines 215-233): new builder, set timeout, priority,
`manual := False`, add every platform token, then build. -/
def submission_settings (timeout priority : Int) (platformTokens : List String) :
    Except String Settings :=
  let b := new_settings
  let b := set_timeout b timeout
  let b := set_priority b priority
  let b := set_manual b false
  let b := platformTokens.foldl addPlatformToken b
  make_settings b

/-- The platform entry a single token contributes (derived from
`addPlatformToken`, for stating its append behaviour). -/
def parsePlatformToken (p_v : String) : PlatformEntry :=
  match pySplitCommaOnce p_v with
  | [p, v] => ⟨p, some v⟩
  | [p] => ⟨p, none⟩
  | _ => ⟨"", none⟩

/-- Python whitespace test used by `str.strip()`. -/
def isPySpace (c : Char) : Bool :=
  c = ' ' || c = '\t' || c = '\n' || c = '\r' || c = '\x0b' || c = '\x0c'

/-- Python `s.strip()`: remove leading and trailing whitespace. -/
def pyStrip (s : String) : String :=
  String.mk (((s.data.dropWhile isPySpace).reverse.dropWhile isPySpace).reverse)

/-- Python `s.split(",")` with no maxsplit, on a character list: the first
piece grows until a comma, each comma starts a new piece. -/
def splitAllComma : List Char → List (List Char)
  | [] => [[]]
  | c :: cs =>
    if c = ',' then [] :: splitAllComma cs
    else
      match splitAllComma cs with
      | h :: t => (c :: h) :: t
      | [] => [[c]]

/-- Python `s.split(",")` with no maxsplit: `""` yields `[""]`. -/
def pySplitComma (s : String) : List String :=
  (splitAllComma s.data).map String.mk

/-- The tag expression of `machine_add` (`main.py` line 159):
`list(filter(None, [t.strip() for t in tags.split(",")]))`. -/
def machine_add_tags (tags : String) : List String :=
  ((pySplitComma tags).map pyStrip).filter (fun t => !t.isEmpty)

/-- The argument record handed to the `add_machine` collaborator. -/
structure MachineArgs where
  machinery : String
  name : String
  label : String
  ip : String
  platform : String
  os_version : Option String
  snapshot : Option String
  interface : Option String
  tags : List String
deriving DecidableEq, Repr

/-- `machine_add` (`main.py` lines 151-163): the arguments passed to the
`add_machine` collaborator, with the tag string parsed as on line 159. -/
def machine_add (machinery name label ip platform : String)
    (os_version snapshot interface : Option String) (tags : String) :
    MachineArgs :=
  ⟨machinery, name, label, ip, platform, os_version, snapshot, interface,
    machine_add_tags tags⟩

/-- A static view of the host filesystem: which paths are regular files,
which are directories, and the ordered list of files a directory
transitively contains. -/
structure FS where
  isFile : String → Bool
  isDir : String → Bool
  dirFiles : String → List String

/-- `os.path.exists(path)`. -/
def pathExists (fs : FS) (p : String) : Bool :=
  fs.isFile p || fs.isDir p

/-- Well-formedness of the filesystem view: every file a directory contains
is a regular file on the filesystem. -/
def FS.WF (fs : FS) : Prop :=
  ∀ d f, f ∈ fs.dirFiles d → fs.isFile f = true

/-- Modelled from the spec: the `enumerate_files(path)` collaborator of
`cuckoo.common.storage` — "a single file resolves to itself; a directory
resolves to the ordered list of files it transitively contains".  The spec
does not define the call on a non-existent path (it expects the dispatcher
not to make it); the model yields no files there, the only behaviour
consistent with the collaborator contract. -/
def enumerate_files (fs : FS) (p : String) : List String :=
  if fs.isFile p then [p]
  else if fs.isDir p then fs.dirFiles p
  else []

/-- One result row yielded by a dispatcher generator:
`(analysis_id, target, error)`. -/
structure SubmissionResult where
  analysis_id : Option String
  target : String
  error : Option String
deriving DecidableEq, Repr

/-- A call made to an external collaborator during dispatch. -/
inductive Event where
  | enumFiles (path : String)
  | submitFile (path : String)
  | submitUrl (url : String)
  | notifyCall
deriving DecidableEq, Repr

/-- The external submission collaborator: `submit.file` / `submit.url`
applied to the shared settings and one unit, returning an analysis id or
raising a `SubmissionError` (modelled as `Except.error`). -/
def SubmitFn : Type := Settings → String → Except String String

/-- First loop of `_submit_files` (`main.py` lines 170-174): for each raw
target, yield an error row when the path does not exist, then (there is no
`continue`) always call `enumerate_files` and accumulate its files.
Returns (yielded rows, collaborator calls, accumulated files). -/
def submitFilesLoop1 (fs : FS) :
    List String → List SubmissionResult × List Event × List String
  | [] => ([], [], [])
  | path :: rest =>
    let here : List SubmissionResult :=
      if pathExists fs path then []
      else [⟨none, path, some "No such file or directory"⟩]
    let r := submitFilesLoop1 fs rest
    (here ++ r.1, Event.enumFiles path :: r.2.1,
      enumerate_files fs path ++ r.2.2)

/-- Second loop of `_submit_files` (`main.py` lines 176-183): submit each
accumulated file through the collaborator, converting a `SubmissionError`
into an error row. -/
def submitFilesLoop2 (sf : SubmitFn) (settings : Settings) :
    List String → List SubmissionResult × List Event
  | [] => ([], [])
  | path :: rest =>
    let row : SubmissionResult :=
      match sf settings path with
      | Except.ok analysis_id => ⟨some analysis_id, path, none⟩
      | Except.error e => ⟨none, path, some e⟩
    let r := submitFilesLoop2 sf settings rest
    (row :: r.1, Event.submitFile path :: r.2)

/-- `_submit_files` (`main.py` lines 166-183): the full sequence of yielded
rows and the collaborator calls made while producing it. -/
def _submit_files (fs : FS) (sf : SubmitFn) (settings : Settings)
    (targets : List String) : List SubmissionResult × List Event :=
  let l1 := submitFilesLoop1 fs targets
  let l2 := submitFilesLoop2 sf settings l1.2.2
  (l1.1 ++ l2.1, l1.2.1 ++ l2.2)

/-- `_submit_urls` (`main.py` lines 185-192): one row per raw URL in input
order, converting a `SubmissionError` into an error row. -/
def _submit_urls (su : SubmitFn) (settings : Settings) :
    List String → List SubmissionResult × List Event
  | [] => ([], [])
  | url :: rest =>
    let row : SubmissionResult :=
      match su settings url with
      | Except.ok analysis_id => ⟨some analysis_id, url, none⟩
      | Except.error e => ⟨none, url, some e⟩
    let r := _submit_urls su settings rest
    (row :: r.1, Event.submitUrl url :: r.2)

/-- A line printed by the `submit` command loop. -/
inductive PrintEv where
  | info (msg : String)
  | err (msg : String)
  | warn (msg : String)
deriving DecidableEq, Repr

/-- The per-row print of the `submit` command loop
(`main.py` lines 243-247). -/
def resultLine (kind : String) (r : SubmissionResult) : PrintEv :=
  match r.error with
  | some e => PrintEv.err ("Failed to submit " ++ kind ++ ": " ++ r.target ++ ". " ++ e)
  | none =>
    PrintEv.info ("Submitted " ++ kind ++ ": " ++ r.analysis_id.getD "None"
      ++ " -> " ++ r.target)

/-- The dispatch-and-notify portion of the `submit` command
(`main.py` lines 237-252): consume the chosen generator printing one line
per row, then — in the `finally` block — call `submit.notify()` exactly
here, downgrading its `SubmissionError` to a warning.  Returns the printed
lines and all collaborator calls. -/
def submission_dispatch (fs : FS) (sf su : SubmitFn) (settings : Settings)
    (urlMode : Bool) (targets : List String)
    (notifyOutcome : Except String Unit) : List PrintEv × List Event :=
  let gen :=
    if urlMode then _submit_urls su settings targets
    else _submit_files fs sf settings targets
  let kind := if urlMode then "URL" else "file"
  let prints := gen.1.map (resultLine kind)
  let warnPrints :=
    match notifyOutcome with
    | Except.ok _ => []
    | Except.error e => [PrintEv.warn e]
  (prints ++ warnPrints, gen.2 ++ [Event.notifyCall])

/-- The error a `createcwd` run can terminate with (`exit_error` paths and
the failure of the modelled `cuckoocwd.create`). -/
inductive CwdError where
  | alreadyExists
  | invalidCWD
  | configGenFail (msg : String)
  | dirUpdateFail (msg : String)
deriving DecidableEq, Repr

/-- Modelled from the spec: `cuckoocwd.create(path)` of
`cuckoo.common.storage` — "builds the full directory skeleton; fails with
`AlreadyExists` if `path` exists and caller did not request a repair
operation".  On failure nothing is written. -/
def cuckoocwd_create (fs : FS) (path : String) : List String × Option CwdError :=
  if pathExists fs path then ([], some CwdError.alreadyExists)
  else (["skeleton:" ++ path], none)

/-- `create_cwd` (`main.py` lines 85-123): the writes the command performs
and the error it terminates with, if any.  `is_valid` models
`cuckoocwd.is_valid`; `genOutcome` and `updOutcome` model the writes or the
failure of `create_configurations` and `cuckoocwd.update_missing`, both of
which live outside this file's source. -/
def create_cwd (fs : FS) (is_valid : String → Bool)
    (genOutcome updOutcome : Except String (List String))
    (cwd_path : String) (regen_configs update_directories : Bool) :
    List String × Option CwdError :=
  if fs.isDir cwd_path then
    if !regen_configs && !update_directories then
      ([], some CwdError.alreadyExists)
    else if !is_valid cwd_path then
      ([], some CwdError.invalidCWD)
    else if regen_configs then
      match genOutcome with
      | Except.ok w => (w, none)
      | Except.error e => ([], some (CwdError.configGenFail e))
    else
      match updOutcome with
      | Except.ok w => (w, none)
      | Except.error e => ([], some (CwdError.dirUpdateFail e))
  else
    match cuckoocwd_create fs cwd_path with
    | (w, some e) => (w, some e)
    | (w, none) =>
      match genOutcome with
      | Except.ok w2 => (w ++ w2, none)
      | Except.error e => (w, some (CwdError.configGenFail e))

/-- An event of a run-mode execution: registering a shutdown action,
reporting a startup error, or running one registered shutdown action. -/
inductive RunEv where
  | register (name : String)
  | reportError (msg : String)
  | runShutdown (name : String)
deriving DecidableEq, Repr

/-- Modelled from the spec: `call_registered_shutdowns` of
`cuckoo.common.shutdown` runs every registered shutdown action once, in
registration order. -/
def call_registered_shutdowns (registered : List String) : List RunEv :=
  registered.map RunEv.runShutdown

/-- The `try/except StartupError/finally` tail shared by the default run
mode and `importmode`: the subsystem entry point runs; a `StartupError` is
reported via `exit_error` (the process will exit non-zero), and the
`finally` block always calls `call_registered_shutdowns` before the process
leaves.  Returns the event trace and whether the process exits non-zero. -/
def runWithShutdowns (registered : List String)
    (outcome : Except String Unit) : List RunEv × Bool :=
  let regEvs := registered.map RunEv.register
  match outcome with
  | Except.ok _ =>
    (regEvs ++ call_registered_shutdowns registered, false)
  | Except.error e =>
    (regEvs ++ [RunEv.reportError e] ++ call_registered_shutdowns registered,
      true)

/-- The default (standalone/distributed) run-mode tail of `main`
(`main.py` lines 69-79): one shutdown action `_stopmsg` is registered
before `start_cuckoo` runs. -/
def main_run_mode (outcome : Except String Unit) : List RunEv × Bool :=
  runWithShutdowns ["Stopping Cuckoo.."] outcome

/-- The `importmode` command tail (`main.py` lines 368-378): one shutdown
action `_stopmsg` is registered before `start_importmode` runs. -/
def importmode_run (outcome : Except String Unit) : List RunEv × Bool :=
  runWithShutdowns ["Stopping import mode.."] outcome

/-- The error row `_submit_files` yields for a non-existent raw target. -/
def errRow (p : String) : SubmissionResult :=
  ⟨none, p, some "No such file or directory"⟩

/-- The row the dispatcher yields for one submitted unit: the analysis id on
success, the caught `SubmissionError` on failure. -/
def submitRow (sf : SubmitFn) (settings : Settings) (u : String) :
    SubmissionResult :=
  match sf settings u with
  | Except.ok analysis_id => ⟨some analysis_id, u, none⟩
  | Except.error e => ⟨none, u, some e⟩

/-- All files the raw targets resolve to, in resolution order. -/
def resolveAll (fs : FS) : List String → List String
  | [] => []
  | p :: rest => enumerate_files fs p ++ resolveAll fs rest

/-- An empty filesystem: nothing exists. -/
def fs0 : FS := ⟨fun _ => false, fun _ => false, fun _ => []⟩

/-- A small filesystem: files `f1`, `f2`, and a directory `d` containing
both. -/
def fs1 : FS :=
  ⟨fun p => p == "f1" || p == "f2",
    fun p => p == "d",
    fun d => if d == "d" then ["f1", "f2"] else []⟩

/-- A submission collaborator that always succeeds. -/
def sfOk : SubmitFn := fun _ u => Except.ok ("id-" ++ u)

/-- A submission collaborator that raises a `SubmissionError` for the unit
`f1` and succeeds on every other unit. -/
def sfBad : SubmitFn :=
  fun _ u => if u == "f1" then Except.error "quota" else Except.ok ("id-" ++ u)

/-- A concrete settings value. -/
def st0 : Settings := ⟨120, 1, false, []⟩

lemma fs0_wf : FS.WF fs0 :=
  fun _ f h => absurd h (List.not_mem_nil f)

lemma fs1_wf : FS.WF fs1 := by
  intro d f h
  simp only [fs1] at h ⊢
  split at h
  · simp only [List.mem_cons, List.not_mem_nil, or_false] at h
    rcases h with h | h <;> subst h <;> rfl
  · exact absurd h (List.not_mem_nil f)

lemma submitFilesLoop1_eq (fs : FS) (ts : List String) :
    submitFilesLoop1 fs ts =
      ((ts.filter (fun p => !pathExists fs p)).map errRow,
        ts.map Event.enumFiles, resolveAll fs ts) := by
  induction ts with
  | nil => rfl
  | cons p rest ih =>
    by_cases h : pathExists fs p = true
    · simp [submitFilesLoop1, ih, h, List.filter_cons, resolveAll]
    · simp only [Bool.not_eq_true] at h
      simp [submitFilesLoop1, ih, h, List.filter_cons, resolveAll, errRow]

lemma submitFilesLoop2_eq (sf : SubmitFn) (st : Settings) (fls : List String) :
    submitFilesLoop2 sf st fls =
      (fls.map (submitRow sf st), fls.map Event.submitFile) := by
  induction fls with
  | nil => rfl
  | cons p rest ih => simp [submitFilesLoop2, ih, submitRow]

lemma submit_files_eq (fs : FS) (sf : SubmitFn) (st : Settings)
    (ts : List String) :
    _submit_files fs sf st ts =
      ((ts.filter (fun p => !pathExists fs p)).map errRow
          ++ (resolveAll fs ts).map (submitRow sf st),
        ts.map Event.enumFiles
          ++ (resolveAll fs ts).map Event.submitFile) := by
  simp [_submit_files, submitFilesLoop1_eq, submitFilesLoop2_eq]

lemma submit_urls_eq (su : SubmitFn) (st : Settings) (ts : List String) :
    _submit_urls su st ts =
      (ts.map (submitRow su st), ts.map Event.submitUrl) := by
  induction ts with
  | nil => rfl
  | cons u rest ih => simp [_submit_urls, ih, submitRow]

lemma submitRow_target (sf : SubmitFn) (st : Settings) (u : String) :
    (submitRow sf st u).target = u := by
  unfold submitRow
  split <;> rfl

lemma submitRow_of_error (sf : SubmitFn) (st : Settings) (u : String)
    (e : String) (h : sf st u = Except.error e) :
    submitRow sf st u = ⟨none, u, some e⟩ := by
  unfold submitRow
  rw [h]

lemma pathExists_of_mem_enumerate (fs : FS) (hwf : fs.WF) (t p : String)
    (hp : p ∈ enumerate_files fs t) : pathExists fs p = true := by
  unfold enumerate_files at hp
  by_cases hf : fs.isFile t = true
  · simp [hf] at hp
    subst hp
    simp [pathExists, hf]
  · simp [hf] at hp
    by_cases hd : fs.isDir t = true
    · simp [hd] at hp
      simp [pathExists, hwf t p hp]
    · simp [hd] at hp

lemma pathExists_of_mem_resolveAll (fs : FS) (hwf : fs.WF)
    (ts : List String) (p : String) (hp : p ∈ resolveAll fs ts) :
    pathExists fs p = true := by
  induction ts with
  | nil => simp [resolveAll] at hp
  | cons t rest ih =>
    rw [resolveAll] at hp
    rcases List.mem_append.mp hp with h | h
    · exact pathExists_of_mem_enumerate fs hwf t p h
    · exact ih h

lemma addPlatformToken_eq (b : SettingsBuilderState) (pv : String) :
    addPlatformToken b pv
      = { b with platforms := b.platforms ++ [parsePlatformToken pv] } := by
  unfold addPlatformToken parsePlatformToken pySplitCommaOnce
  rcases h : splitFirstComma pv.data with ⟨a, _ | c⟩ <;>
    simp [h, add_platform]

lemma foldl_addPlatformToken_platforms (tokens : List String)
    (b : SettingsBuilderState) :
    (tokens.foldl addPlatformToken b).platforms
      = b.platforms ++ tokens.map parsePlatformToken := by
  induction tokens generalizing b with
  | nil => simp
  | cons t rest ih =>
    rw [List.foldl_cons, ih, addPlatformToken_eq]
    simp

lemma foldl_addPlatformToken_manual (tokens : List String)
    (b : SettingsBuilderState) :
    (tokens.foldl addPlatformToken b).manual = b.manual := by
  induction tokens generalizing b with
  | nil => rfl
  | cons t rest ih => rw [List.foldl_cons, ih, addPlatformToken_eq]

lemma splitFirstComma_no_comma (l : List Char) (h : ',' ∉ l) :
    splitFirstComma l = (l, none) := by
  induction l with
  | nil => rfl
  | cons c cs ih =>
    simp only [List.mem_cons, not_or] at h
    rw [splitFirstComma, if_neg (fun hc => h.1 hc.symm), ih h.2]

lemma splitFirstComma_append (pre post : List Char) (h : ',' ∉ pre) :
    splitFirstComma (pre ++ ',' :: post) = (pre, some post) := by
  induction pre with
  | nil => simp [splitFirstComma]
  | cons c cs ih =>
    simp only [List.mem_cons, not_or] at h
    rw [List.cons_append, splitFirstComma,
      if_neg (fun hc => h.1 hc.symm), ih h.2]

lemma parsePlatformToken_no_comma (s : String) (h : ',' ∉ s.data) :
    parsePlatformToken s = ⟨s, none⟩ := by
  unfold parsePlatformToken pySplitCommaOnce
  rw [splitFirstComma_no_comma s.data h]

lemma parsePlatformToken_append (pre post : String) (h : ',' ∉ pre.data) :
    parsePlatformToken (String.mk (pre.data ++ ',' :: post.data))
      = ⟨pre, some post⟩ := by
  unfold parsePlatformToken pySplitCommaOnce
  rw [splitFirstComma_append pre.data post.data h]

lemma make_settings_manual (b : SettingsBuilderState) (s : Settings)
    (h : make_settings b = Except.ok s) : some s.manual = b.manual := by
  unfold make_settings at h
  split at h
  · exact absurd h (by simp)
  · split at h
    · exact absurd h (by simp)
    · split at h
      · exact absurd h (by simp)
      · split at h
        · exact absurd h (by simp)
        · rename_i t ht hle pr hpr m hm
          injection h with h
          subst h
          exact hm.symm

lemma errRow_injective : Function.Injective errRow := by
  intro a b h
  simpa [errRow, SubmissionResult.mk.injEq] using h

lemma submitRow_dichotomy (sf : SubmitFn) (st : Settings) (u : String) :
    ((submitRow sf st u).analysis_id.isSome ∧ (submitRow sf st u).error = none)
    ∨ ((submitRow sf st u).analysis_id = none
        ∧ (submitRow sf st u).error.isSome) := by
  unfold submitRow
  cases sf st u <;> simp

lemma notifyCall_not_mem_files (fs : FS) (sf : SubmitFn) (st : Settings)
    (ts : List String) : Event.notifyCall ∉ (_submit_files fs sf st ts).2 := by
  rw [submit_files_eq]
  simp

lemma notifyCall_not_mem_urls (su : SubmitFn) (st : Settings)
    (ts : List String) : Event.notifyCall ∉ (_submit_urls su st ts).2 := by
  rw [submit_urls_eq]
  simp

/-- C1 (counterexample): the claim asserts that for a non-existent raw
target no resolution (file enumeration) is attempted.  In the code the
`yield` for the missing path is not followed by `continue`, so
`enumerate_files` is still called on it: at the concrete input `"missing"`
on an empty filesystem, the trace contains the enumeration call. -/
theorem nonexistent_target_resolution_attempted :
    pathExists fs0 "missing" = false
    ∧ Event.enumFiles "missing" ∈ (_submit_files fs0 sfOk st0 ["missing"]).2 := by
  constructor
  · rfl
  · decide

/-- C1 (amended): for every raw file target that does not exist, exactly
one result per occurrence is emitted, carrying the error "No such file or
directory" and no analysis id, and no submission-collaborator call is made
for it; however `enumerate_files` is still invoked on the missing path
(there is no `continue` after the yield), which contributes no files. -/
theorem nonexistent_target_one_error_row (fs : FS) (sf : SubmitFn)
    (st : Settings) (targets : List String) (t : String) (hwf : fs.WF)
    (hne : pathExists fs t = false) (hmem : t ∈ targets) :
    ((_submit_files fs sf st targets).1.count (errRow t) = targets.count t)
    ∧ (∀ r ∈ (_submit_files fs sf st targets).1, r.target = t → r = errRow t)
    ∧ (errRow t).analysis_id = none
    ∧ Event.submitFile t ∉ (_submit_files fs sf st targets).2
    ∧ Event.enumFiles t ∈ (_submit_files fs sf st targets).2 := by
  rw [submit_files_eq]
  have hres : ∀ p ∈ resolveAll fs targets, p ≠ t := by
    intro p hp hpt
    rw [hpt] at hp
    rw [pathExists_of_mem_resolveAll fs hwf targets t hp] at hne
    exact Bool.true_eq_false.mp hne
  refine ⟨?_, ?_, rfl, ?_, ?_⟩
  · rw [List.count_append]
    have h1 : ((targets.filter (fun p => !pathExists fs p)).map errRow).count
        (errRow t) = targets.count t := by
      rw [List.count_map_of_injective _ errRow errRow_injective t]
      exact List.count_filter (by simp [hne])
    have h2 : (((resolveAll fs targets).map (submitRow sf st)).count
        (errRow t)) = 0 := by
      rw [List.count_eq_zero]
      intro hc
      rcases List.mem_map.mp hc with ⟨p, hp, hpe⟩
      have : p = t := by
        have := congrArg SubmissionResult.target hpe
        rwa [submitRow_target] at this
      exact hres p hp this
    rw [h1, h2]
    omega
  · intro r hr hrt
    rcases List.mem_append.mp hr with h | h
    · rcases List.mem_map.mp h with ⟨p, _, hpe⟩
      have hp : p = t := by
        rw [← hpe] at hrt
        exact hrt
      rw [← hpe, hp]
    · rcases List.mem_map.mp h with ⟨p, hp, hpe⟩
      rw [← hpe] at hrt
      rw [submitRow_target] at hrt
      exact absurd hrt (hres p hp)
  · intro hc
    rcases List.mem_append.mp hc with h | h
    · rcases List.mem_map.mp h with ⟨p, _, hpe⟩
      exact Event.noConfusion hpe
    · rcases List.mem_map.mp h with ⟨p, hp, hpe⟩
      exact hres p hp (Event.submitFile.injEq .. ▸ hpe)
  · exact List.mem_append.mpr (Or.inl (List.mem_map_of_mem Event.enumFiles hmem))

/-- C1 (witness): the amended statement instantiated on the empty
filesystem with the single raw target `"missing"`. -/
theorem nonexistent_target_one_error_row_witness :
    FS.WF fs0 ∧ pathExists fs0 "missing" = false ∧ "missing" ∈ ["missing"]
    ∧ (((_submit_files fs0 sfOk st0 ["missing"]).1.count (errRow "missing")
          = ["missing"].count "missing")
        ∧ (∀ r ∈ (_submit_files fs0 sfOk st0 ["missing"]).1,
            r.target = "missing" → r = errRow "missing")
        ∧ (errRow "missing").analysis_id = none
        ∧ Event.submitFile "missing" ∉ (_submit_files fs0 sfOk st0 ["missing"]).2
        ∧ Event.enumFiles "missing" ∈ (_submit_files fs0 sfOk st0 ["missing"]).2) :=
  ⟨fs0_wf, rfl, by decide,
    nonexistent_target_one_error_row fs0 sfOk st0 ["missing"] "missing"
      fs0_wf rfl (by decide)⟩

lemma map_target_submitRow (sf : SubmitFn) (st : Settings) (l : List String) :
    (l.map (submitRow sf st)).map SubmissionResult.target = l := by
  rw [List.map_map]
  induction l with
  | nil => rfl
  | cons a l ih => simp only [List.map_cons, Function.comp_apply,
      submitRow_target, ih]

lemma map_target_errRow (l : List String) :
    (l.map errRow).map SubmissionResult.target = l := by
  rw [List.map_map]
  induction l with
  | nil => rfl
  | cons a l ih =>
    simp only [List.map_cons, Function.comp_apply, ih]
    rfl

/-- C2: the dispatcher emits exactly one result per resolved unit, in
resolution order: for Url kind one result per raw URL in input order; for
File kind the results whose target is a resolved (existing) unit are
exactly the resolved units, in the order the raw targets resolve (a file
to itself, a directory to the ordered files it contains). -/
theorem one_result_per_resolved_unit (fs : FS) (sf su : SubmitFn)
    (st : Settings) (targets : List String) (hwf : fs.WF) :
    ((_submit_urls su st targets).1.map SubmissionResult.target = targets)
    ∧ (((_submit_files fs sf st targets).1.filter
          (fun r => pathExists fs r.target)).map SubmissionResult.target
        = resolveAll fs targets) := by
  constructor
  · rw [submit_urls_eq]
    exact map_target_submitRow su st targets
  · rw [submit_files_eq]
    have hnil : (((targets.filter (fun p => !pathExists fs p)).map
        errRow).filter (fun r => pathExists fs r.target)) = [] := by
      rw [List.filter_eq_nil_iff]
      intro r hr
      rcases List.mem_map.mp hr with ⟨p, hp, hpe⟩
      have hpne := (List.mem_filter.mp hp).2
      rw [← hpe]
      simp only [errRow]
      simp only [Bool.not_eq_true'] at hpne
      simp [hpne]
    have hself : (((resolveAll fs targets).map (submitRow sf st)).filter
        (fun r => pathExists fs r.target))
          = (resolveAll fs targets).map (submitRow sf st) := by
      rw [List.filter_eq_self]
      intro r hr
      rcases List.mem_map.mp hr with ⟨p, hp, hpe⟩
      rw [← hpe]
      simp only [submitRow_target]
      simp [pathExists_of_mem_resolveAll fs hwf targets p hp]
    rw [List.filter_append, hnil, hself, List.nil_append]
    exact map_target_submitRow sf st (resolveAll fs targets)

/-- C2 (witness): on a filesystem with files `f1`, `f2` and directory `d`
containing both, the targets `[d, nope, f2]` resolve to `[f1, f2, f2]` and
the URL dispatcher produces one result per URL. -/
theorem one_result_per_resolved_unit_witness :
    FS.WF fs1
    ∧ (((_submit_urls sfOk st0 ["d", "nope", "f2"]).1.map
          SubmissionResult.target = ["d", "nope", "f2"])
        ∧ (((_submit_files fs1 sfBad st0 ["d", "nope", "f2"]).1.filter
            (fun r => pathExists fs1 r.target)).map SubmissionResult.target
          = resolveAll fs1 ["d", "nope", "f2"])) :=
  ⟨fs1_wf,
    one_result_per_resolved_unit fs1 sfBad sfOk st0 ["d", "nope", "f2"]
      fs1_wf⟩

/-- C3: the dispatch-and-notify portion of the `submit` command issues the
notification call exactly once, as the last collaborator call, for any
number of targets; a `SubmissionError` raised by it only appends a warning
line and leaves every already-printed result line unchanged. -/
theorem notify_called_exactly_once (fs : FS) (sf su : SubmitFn)
    (st : Settings) (urlMode : Bool) (targets : List String)
    (notifyOutcome : Except String Unit) :
    ((submission_dispatch fs sf su st urlMode targets notifyOutcome).2.count
        Event.notifyCall = 1)
    ∧ ((submission_dispatch fs sf su st urlMode targets
          notifyOutcome).2.getLast? = some Event.notifyCall)
    ∧ (∀ e, (submission_dispatch fs sf su st urlMode targets
          (Except.error e)).1
        = (submission_dispatch fs sf su st urlMode targets
            (Except.ok ())).1 ++ [PrintEv.warn e]) := by
  refine ⟨?_, ?_, ?_⟩
  · unfold submission_dispatch
    rw [List.count_append]
    have hz : (if urlMode then _submit_urls su st targets
        else _submit_files fs sf st targets).2.count Event.notifyCall = 0 := by
      rw [List.count_eq_zero]
      by_cases h : urlMode = true
      · simp only [h, if_pos]
        exact notifyCall_not_mem_urls su st targets
      · simp only [h, if_neg, Bool.false_eq_true, ite_false]
        exact notifyCall_not_mem_files fs sf st targets
    rw [hz]
    rfl
  · unfold submission_dispatch
    exact List.getLast?_concat _
  · intro e
    unfold submission_dispatch
    simp

/-- C4: a `SubmissionError` raised by the submission collaborator for one
unit is caught and converted into an error result for that unit, never
propagated, and every other unit still receives a result: the target list
of the emitted results covers all units. -/
theorem submission_error_isolation (fs : FS) (sf su : SubmitFn)
    (st : Settings) (targets : List String) :
    ((_submit_urls su st targets).1.map SubmissionResult.target = targets)
    ∧ (∀ u e, u ∈ targets → su st u = Except.error e →
        (⟨none, u, some e⟩ : SubmissionResult)
          ∈ (_submit_urls su st targets).1)
    ∧ ((_submit_files fs sf st targets).1.map SubmissionResult.target
        = targets.filter (fun p => !pathExists fs p) ++ resolveAll fs targets)
    ∧ (∀ u e, u ∈ resolveAll fs targets → sf st u = Except.error e →
        (⟨none, u, some e⟩ : SubmissionResult)
          ∈ (_submit_files fs sf st targets).1) := by
  refine ⟨?_, ?_, ?_, ?_⟩
  · rw [submit_urls_eq]
    exact map_target_submitRow su st targets
  · intro u e hu he
    rw [submit_urls_eq]
    rw [← submitRow_of_error su st u e he]
    exact List.mem_map_of_mem (submitRow su st) hu
  · rw [submit_files_eq, List.map_append, map_target_errRow,
      map_target_submitRow]
  · intro u e hu he
    rw [submit_files_eq]
    refine List.mem_append.mpr (Or.inr ?_)
    rw [← submitRow_of_error sf st u e he]
    exact List.mem_map_of_mem (submitRow sf st) hu

/-- C4 (witness): with a collaborator failing on `f1` among two URLs, the
failing unit yields an error result and both units are covered. -/
theorem submission_error_isolation_witness :
    ("f1" ∈ ["f1", "u2"])
    ∧ sfBad st0 "f1" = Except.error "quota"
    ∧ ((⟨none, "f1", some "quota"⟩ : SubmissionResult)
        ∈ (_submit_urls sfBad st0 ["f1", "u2"]).1) :=
  ⟨by decide, rfl,
    (submission_error_isolation fs1 sfBad sfBad st0 ["f1", "u2"]).2.1
      "f1" "quota" (by decide) rfl⟩

/-- C5: every result emitted by either dispatcher has exactly one of
`analysis_id` and `error` present — never both, never neither. -/
theorem result_has_exactly_one_of_id_error (fs : FS) (sf su : SubmitFn)
    (st : Settings) (targets : List String) (r : SubmissionResult)
    (h : r ∈ (_submit_files fs sf st targets).1
        ∨ r ∈ (_submit_urls su st targets).1) :
    (r.analysis_id.isSome ∧ r.error = none)
    ∨ (r.analysis_id = none ∧ r.error.isSome) := by
  rcases h with h | h
  · rw [submit_files_eq] at h
    rcases List.mem_append.mp h with h | h
    · rcases List.mem_map.mp h with ⟨p, _, hpe⟩
      rw [← hpe]
      simp [errRow]
    · rcases List.mem_map.mp h with ⟨p, _, hpe⟩
      rw [← hpe]
      exact submitRow_dichotomy sf st p
  · rw [submit_urls_eq] at h
    rcases List.mem_map.mp h with ⟨p, _, hpe⟩
    rw [← hpe]
    exact submitRow_dichotomy su st p

/-- C5 (witness): the invariant instantiated on the error row of a missing
target. -/
theorem result_has_exactly_one_of_id_error_witness :
    (errRow "missing" ∈ (_submit_files fs0 sfOk st0 ["missing"]).1
        ∨ errRow "missing" ∈ (_submit_urls sfOk st0 ["missing"]).1)
    ∧ (((errRow "missing").analysis_id.isSome
          ∧ (errRow "missing").error = none)
        ∨ ((errRow "missing").analysis_id = none
          ∧ (errRow "missing").error.isSome)) :=
  ⟨Or.inl (by decide),
    result_has_exactly_one_of_id_error fs0 sfOk sfOk st0 ["missing"]
      (errRow "missing") (Or.inl (by decide))⟩

/-- C6: each platform token of the `submit` command is split on the first
comma only and appends exactly one platform entry in input order:
`"windows,10"` yields platform `windows` with os version `10`, `"linux"`
yields platform `linux` with os version absent, and a token with more than
one comma keeps the whole remainder after the first comma as the os
version, not re-split. -/
theorem platform_token_first_comma_split :
    (∀ (tokens : List String) (b : SettingsBuilderState),
        (tokens.foldl addPlatformToken b).platforms
          = b.platforms ++ tokens.map parsePlatformToken)
    ∧ (∀ pre post : String, ',' ∉ pre.data →
        parsePlatformToken (String.mk (pre.data ++ ',' :: post.data))
          = ⟨pre, some post⟩)
    ∧ (∀ s : String, ',' ∉ s.data → parsePlatformToken s = ⟨s, none⟩)
    ∧ parsePlatformToken "windows,10" = ⟨"windows", some "10"⟩
    ∧ parsePlatformToken "a,b,c" = ⟨"a", some "b,c"⟩
    ∧ submission_settings 120 1 ["windows,10", "linux"]
        = Except.ok ⟨120, 1, false,
            [⟨"windows", some "10"⟩, ⟨"linux", none⟩]⟩ :=
  ⟨foldl_addPlatformToken_platforms, parsePlatformToken_append,
    parsePlatformToken_no_comma, by decide, by decide, rfl⟩

/-- C6 (witness): the first-comma split instantiated on a token whose
remainder itself contains a comma. -/
theorem platform_token_first_comma_split_witness :
    (',' ∉ "windows".data)
    ∧ parsePlatformToken (String.mk ("windows".data ++ ',' :: "10,x86".data))
        = ⟨"windows", some "10,x86"⟩ :=
  ⟨by decide,
    platform_token_first_comma_split.2.1 "windows" "10,x86" (by decide)⟩

/-- C7: invoking `createcwd` on a path that already exists, without the
`--regen-configs` and `--update-directories` repair flags, fails with
`AlreadyExists` and performs no writes. -/
theorem createcwd_existing_path_fails (fs : FS) (is_valid : String → Bool)
    (genOutcome updOutcome : Except String (List String)) (cwd_path : String)
    (hex : pathExists fs cwd_path = true) :
    create_cwd fs is_valid genOutcome updOutcome cwd_path false false
      = ([], some CwdError.alreadyExists) := by
  unfold create_cwd
  by_cases hd : fs.isDir cwd_path = true
  · simp [hd]
  · simp only [Bool.not_eq_true] at hd
    simp [hd, cuckoocwd_create, hex]

/-- C7 (witness): the failure instantiated on an existing directory and on
an existing regular file. -/
theorem createcwd_existing_path_fails_witness :
    pathExists fs1 "d" = true ∧ pathExists fs1 "f1" = true
    ∧ create_cwd fs1 (fun _ => true) (Except.ok ["cfg"]) (Except.ok ["dir"])
        "d" false false = ([], some CwdError.alreadyExists)
    ∧ create_cwd fs1 (fun _ => true) (Except.ok ["cfg"]) (Except.ok ["dir"])
        "f1" false false = ([], some CwdError.alreadyExists) :=
  ⟨rfl, rfl,
    createcwd_existing_path_fails fs1 (fun _ => true) (Except.ok ["cfg"])
      (Except.ok ["dir"]) "d" rfl,
    createcwd_existing_path_fails fs1 (fun _ => true) (Except.ok ["cfg"])
      (Except.ok ["dir"]) "f1" rfl⟩

lemma count_runShutdown_map_register (l : List String) (a : String) :
    (l.map RunEv.register).count (RunEv.runShutdown a) = 0 := by
  rw [List.count_eq_zero]
  intro h
  rcases List.mem_map.mp h with ⟨x, _, hx⟩
  exact RunEv.noConfusion hx

lemma count_runShutdown_map (l : List String) (a : String) :
    (l.map RunEv.runShutdown).count (RunEv.runShutdown a) = l.count a :=
  List.count_map_of_injective l RunEv.runShutdown
    (fun x y h => by injection h) a

/-- C8: in the default standalone/distributed run mode and in import mode,
every shutdown action registered before the blocking subsystem call runs
exactly once on exit — both when the subsystem returns normally and when
it raises a `StartupError`, which is reported and makes the process exit
non-zero. -/
theorem shutdown_actions_run_exactly_once :
    (∀ (registered : List String) (outcome : Except String Unit)
        (a : String),
        (runWithShutdowns registered outcome).1.count (RunEv.runShutdown a)
          = registered.count a)
    ∧ (∀ outcome, (main_run_mode outcome).1.count
        (RunEv.runShutdown "Stopping Cuckoo..") = 1)
    ∧ (∀ outcome, (importmode_run outcome).1.count
        (RunEv.runShutdown "Stopping import mode..") = 1)
    ∧ (∀ e, (main_run_mode (Except.error e)).2 = true
        ∧ (importmode_run (Except.error e)).2 = true
        ∧ RunEv.reportError e ∈ (main_run_mode (Except.error e)).1
        ∧ RunEv.reportError e ∈ (importmode_run (Except.error e)).1)
    ∧ (main_run_mode (Except.ok ())).2 = false
    ∧ (importmode_run (Except.ok ())).2 = false := by
  have hgen : ∀ (registered : List String) (outcome : Except String Unit)
      (a : String),
      (runWithShutdowns registered outcome).1.count (RunEv.runShutdown a)
        = registered.count a := by
    intro registered outcome a
    cases outcome with
    | ok _ =>
      simp only [runWithShutdowns, call_registered_shutdowns,
        List.count_append, count_runShutdown_map_register,
        count_runShutdown_map]
      omega
    | error e =>
      simp only [runWithShutdowns, call_registered_shutdowns,
        List.count_append, count_runShutdown_map_register,
        count_runShutdown_map]
      rw [List.count_eq_zero.mpr (by simp)]
      omega
  refine ⟨hgen, ?_, ?_, ?_, rfl, rfl⟩
  · intro outcome
    rw [main_run_mode, hgen]
    rfl
  · intro outcome
    rw [importmode_run, hgen]
    rfl
  · intro e
    refine ⟨rfl, rfl, ?_, ?_⟩ <;>
      simp [main_run_mode, importmode_run, runWithShutdowns]

/-- C9: every settings value the `submit` command successfully builds has
the manual flag set to `False`, for every combination of timeout, priority
and platform tokens. -/
theorem submit_settings_never_manual (timeout priority : Int)
    (platformTokens : List String) (s : Settings)
    (h : submission_settings timeout priority platformTokens
      = Except.ok s) : s.manual = false := by
  unfold submission_settings at h
  have hm := make_settings_manual _ _ h
  rw [foldl_addPlatformToken_manual] at hm
  exact Option.some.inj hm

/-- C9 (witness): the non-manual flag instantiated on a concrete
successful build. -/
theorem submit_settings_never_manual_witness :
    submission_settings 120 1 ["windows,10"]
      = Except.ok ⟨120, 1, false, [⟨"windows", some "10"⟩]⟩
    ∧ (⟨120, 1, false, [⟨"windows", some "10"⟩]⟩ : Settings).manual
        = false :=
  ⟨rfl,
    submit_settings_never_manual 120 1 ["windows,10"]
      ⟨120, 1, false, [⟨"windows", some "10"⟩]⟩ rfl⟩

/-- C10: the `--tags` string of `machine add` is passed onward as its
comma-separated pieces with surrounding whitespace stripped and empty
pieces removed: the default `""` yields `[]` and `"a, ,b,"` yields exactly
`["a", "b"]`; every forwarded tag is a non-empty stripped piece. -/
theorem machine_add_tags_parsed (m n l ip pf : String)
    (ov sn iface : Option String) :
    ((machine_add m n l ip pf ov sn iface "").tags = [])
    ∧ ((machine_add m n l ip pf ov sn iface "a, ,b,").tags = ["a", "b"])
    ∧ (∀ tags : String, (machine_add m n l ip pf ov sn iface tags).tags
        = ((pySplitComma tags).map pyStrip).filter (fun t => !t.isEmpty))
    ∧ (∀ tags t, t ∈ (machine_add m n l ip pf ov sn iface tags).tags →
        !t.isEmpty ∧ t ∈ (pySplitComma tags).map pyStrip) := by
  refine ⟨rfl, rfl, fun tags => rfl, ?_⟩
  intro tags t ht
  have ht' : t ∈ ((pySplitComma tags).map pyStrip).filter
      (fun t => !t.isEmpty) := ht
  have := List.mem_filter.mp ht'
  exact ⟨this.2, this.1⟩

/-- C10 (witness): the membership characterization instantiated on the
token list `"a, ,b,"` and the forwarded tag `"b"`. -/
theorem machine_add_tags_parsed_witness :
    ("b" ∈ (machine_add "kvm" "vm1" "lab1" "192.168.0.2" "windows"
        none none none "a, ,b,").tags)
    ∧ (!("b".isEmpty) = true
        ∧ "b" ∈ (pySplitComma "a, ,b,").map pyStrip) :=
  ⟨by decide,
    (machine_add_tags_parsed "kvm" "vm1" "lab1" "192.168.0.2" "windows"
      none none none).2.2.2 "a, ,b," "b" (by decide)⟩

example : pySplitCommaOnce "windows,10" = ["windows", "10"] := by decide

example : pySplitCommaOnce "a,b,c" = ["a", "b,c"] := by decide

example : machine_add_tags "a, ,b," = ["a", "b"] := by decide

example : machine_add_tags "" = [] := by decide
